import Mathlib

/-!
Shallow embedding of the crypto tax calculator (`webhook.py`).

The core consists of two parts:
* `SimpleTaxEngine` — a FIFO lot-matching ledger engine (`add_transaction`,
  `_process_buy`, `_process_sell`, `_process_staking`, `get_summary`,
  `_estimate_tax`), embedded below as pure state-passing functions over
  `EngineState`.
* `parse_binance_csv` — the row normalizer, embedded at the level of already
  tokenised rows (the `csv.DictReader` tokenisation of raw text is the
  external boundary; a structural read failure yields the empty list).

Python floats are modelled as rationals (ℚ); Python `dict` (which preserves
insertion order) is modelled as an insertion-ordered association list.
-/

/-- Transaction type strings used by the engine: 'buy', 'sell', 'staking',
'transfer' (the only values the normalizer produces). -/
inductive TxType where
  | buy
  | sell
  | staking
  | transfer
  deriving DecidableEq, Repr

/-- Timestamp as produced by `datetime.strptime` with format
`%Y-%m-%d %H:%M:%S`. Only used as opaque data by the engine (FIFO order is
insertion order). -/
structure DateTime where
  year : Nat
  month : Nat
  day : Nat
  hour : Nat
  minute : Nat
  second : Nat
  deriving DecidableEq, Repr

/-- `Transaction.__init__` (webhook.py lines 29-38): one ledger event. -/
structure Transaction where
  date : DateTime
  asset : String
  type : TxType
  amount : ℚ
  price_eur : ℚ
  fee_eur : ℚ
  deriving DecidableEq, Repr

/-- `Transaction.total_cost` (line 40-42): total cost including fees. -/
def Transaction.total_cost (tx : Transaction) : ℚ :=
  tx.amount * tx.price_eur + tx.fee_eur

/-- One inventory lot, the dict literal created by `_process_buy`
(lines 80-85). -/
structure Lot where
  quantity : ℚ
  cost_eur_total : ℚ
  cost_per_unit : ℚ
  date : DateTime
  deriving DecidableEq, Repr

/-- Lookup in the `self.lots` dict: `None` models `asset not in self.lots`. -/
def lotsGet : List (String × List Lot) → String → Option (List Lot)
  | [], _ => none
  | (k, v) :: rest, a => if k = a then some v else lotsGet rest a

/-- Assignment `self.lots[asset] = v`: replaces the entry in place if the key
exists (Python dicts keep insertion order), otherwise appends a new entry. -/
def lotsSet : List (String × List Lot) → String → List Lot → List (String × List Lot)
  | [], a, v => [(a, v)]
  | (k, w) :: rest, a, v => if k = a then (k, v) :: rest else (k, w) :: lotsSet rest a v

/-- The mutable state of `SimpleTaxEngine` (lines 54-60). -/
structure EngineState where
  transactions : List Transaction
  lots : List (String × List Lot)
  gains : ℚ
  losses : ℚ
  staking_income : ℚ
  errors : List String
  deriving DecidableEq, Repr

/-- `SimpleTaxEngine.__init__` (lines 54-60). -/
def initState : EngineState :=
  { transactions := []
    lots := []
    gains := 0
    losses := 0
    staking_income := 0
    errors := [] }

/-- `_process_buy` (lines 75-85): create a new lot at the end of the asset's
inventory (creating the inventory if absent). -/
def process_buy (s : EngineState) (tx : Transaction) : EngineState :=
  let cur := (lotsGet s.lots tx.asset).getD []
  let newLot : Lot :=
    { quantity := tx.amount
      cost_eur_total := tx.total_cost
      cost_per_unit := if tx.amount > 0 then tx.total_cost / tx.amount else 0
      date := tx.date }
  { s with lots := lotsSet s.lots tx.asset (cur ++ [newLot]) }

/-- The FIFO `while` loop of `_process_sell` (lines 97-111): given
`remaining`, the asset's lot queue and the running `cost_basis`, returns the
final `cost_basis` and the remaining lot queue. -/
def sellLoop : ℚ → List Lot → ℚ → ℚ × List Lot
  | _, [], cost_basis => (cost_basis, [])
  | remaining, lot :: rest, cost_basis =>
    if remaining ≤ 0 then (cost_basis, lot :: rest)
    else if lot.quantity ≤ remaining then
      sellLoop (remaining - lot.quantity) rest (cost_basis + lot.cost_eur_total)
    else
      let portion_cost := lot.cost_per_unit * remaining
      (cost_basis + portion_cost,
        { quantity := lot.quantity - remaining
          cost_eur_total := lot.cost_eur_total - portion_cost
          cost_per_unit := lot.cost_per_unit
          date := lot.date } :: rest)

/-- The diagnostic string appended on a sale without prior purchase
(line 90). -/
def ventaSinCompra (asset : String) : String :=
  "Venta sin compra previa: " ++ asset

/-- `_process_sell` (lines 87-119). If the asset has no inventory entry, or
an empty one, record the diagnostic and return; otherwise run the FIFO loop,
book the resulting lot queue back into the dict, and add the realized gain to
`gains` if positive, else to `losses`. -/
def process_sell (s : EngineState) (tx : Transaction) : EngineState :=
  match lotsGet s.lots tx.asset with
  | some (lot0 :: rest0) =>
    let proceeds := tx.amount * tx.price_eur
    let result := sellLoop tx.amount (lot0 :: rest0) 0
    let gain := proceeds - result.1 - tx.fee_eur
    let s1 := { s with lots := lotsSet s.lots tx.asset result.2 }
    if gain > 0 then { s1 with gains := s1.gains + gain }
    else { s1 with losses := s1.losses + gain }
  | _ => { s with errors := s.errors ++ [ventaSinCompra tx.asset] }

/-- `_process_staking` (lines 121-123). -/
def process_staking (s : EngineState) (tx : Transaction) : EngineState :=
  { s with staking_income := s.staking_income + tx.amount * tx.price_eur }

/-- `add_transaction` (lines 62-73): append to the transaction list, then
dispatch on the type. -/
def add_transaction (s : EngineState) (tx : Transaction) : EngineState :=
  match tx.type with
  | TxType.buy => process_buy { s with transactions := s.transactions ++ [tx] } tx
  | TxType.sell => process_sell { s with transactions := s.transactions ++ [tx] } tx
  | TxType.staking => process_staking { s with transactions := s.transactions ++ [tx] } tx
  | TxType.transfer => { s with transactions := s.transactions ++ [tx] }

/-- Round-half-to-even on integers scaled by 100, modelling Python's
`round(x, 2)` (banker's rounding) on the exact rational value. -/
def roundHalfEven (q : ℚ) : ℤ :=
  let f := ⌊q⌋
  let frac := q - f
  if frac < 1 / 2 then f
  else if frac > 1 / 2 then f + 1
  else if f % 2 = 0 then f else f + 1

/-- `round(x, 2)` as used throughout `get_summary` and `_estimate_tax`. -/
def round2 (q : ℚ) : ℚ :=
  (roundHalfEven (q * 100) : ℚ) / 100

/-- `_estimate_tax` (lines 139-153): flat rate picked by upper-bound
inclusive brackets on the net position, zero when the net position is not
positive. -/
def estimate_tax (net_position : ℚ) : ℚ :=
  let rate : ℚ :=
    if net_position ≤ 6000 then 19 / 100
    else if net_position ≤ 50000 then 21 / 100
    else if net_position ≤ 200000 then 23 / 100
    else 27 / 100
  if net_position > 0 then round2 (net_position * rate) else 0

/-- The dict returned by `get_summary` (lines 125-137). -/
structure Summary where
  gains : ℚ
  losses : ℚ
  net_position : ℚ
  staking_income : ℚ
  total_transactions : Nat
  errors : List String
  estimated_tax_liability : ℚ
  deriving DecidableEq, Repr

/-- `get_summary` (lines 125-137). -/
def get_summary (s : EngineState) : Summary :=
  let net_position := s.gains + s.losses
  { gains := round2 s.gains
    losses := round2 |s.losses|
    net_position := round2 net_position
    staking_income := round2 s.staking_income
    total_transactions := s.transactions.length
    errors := s.errors
    estimated_tax_liability := estimate_tax net_position }

/-- The fold performed by the `/calculate` endpoint (lines 295-301): a fresh
engine, `add_transaction` over the list in order, then `get_summary`. -/
def runLedger (txs : List Transaction) : Summary :=
  get_summary (txs.foldl add_transaction initState)

/-- Substring test on character lists: `pat` occurs somewhere in the list. -/
def hasSub (pat : List Char) : List Char → Bool
  | [] => pat.isEmpty
  | c :: t => pat.isPrefixOf (c :: t) || hasSub pat t

/-- Python's `pat in s` substring test on strings. -/
def strContains (s pat : String) : Bool :=
  hasSub pat.data s.data

/-- Python's `s.lower()` on the ASCII identifiers this program meets:
per-character lowering. -/
def lowerStr (s : String) : String :=
  ⟨s.data.map Char.toLower⟩

/-- The type-determination chain of `parse_binance_csv` (lines 198-206),
applied to the operation label and the signed quantity `change`. Note the
source tests `'buy' in operation.lower() or change > 0` first, so the sign
fallback of the first two rules fires before the stake/reward rule. -/
def classify (operation : String) (change : ℚ) : TxType :=
  let op := lowerStr operation
  if strContains op "buy" || decide (change > 0) then TxType.buy
  else if strContains op "sell" || decide (change < 0) then TxType.sell
  else if strContains op "stake" || strContains op "reward" then TxType.staking
  else TxType.transfer

/-- One tokenised CSV data row, as produced by `csv.DictReader`: column name
to cell value (a missing column has no entry, an empty cell maps to ""). -/
abbrev Row : Type := List (String × String)

/-- `row.get k` on a `DictReader` row. -/
def rowGet : Row → String → Option String
  | [], _ => none
  | (k, v) :: rest, a => if k = a then some v else rowGet rest a

/-- A Python `row.get(k1) or row.get(k2) or ...` chain: the first key whose
value is present and non-empty (both `None` and `""` are falsy). -/
def resolve (row : Row) : List String → Option String
  | [] => none
  | k :: ks =>
    match rowGet row k with
    | some v => if v = "" then resolve row ks else some v
    | none => resolve row ks

/-- Numeric value of a digit list (most significant first). -/
def digitsVal (cs : List Char) : Nat :=
  cs.foldl (fun a c => a * 10 + (c.toNat - 48)) 0

/-- Model of the Python builtin `float(s)` on plain decimal literals: an
optional sign, then digits with at most one decimal point and at least one
digit. `none` models the `ValueError` that the row-level `except` in
`parse_binance_csv` turns into a skipped row. (Exponents, `inf`/`nan`,
underscores and surrounding whitespace are outside the inputs this program
meets and are not modelled.) -/
def parseFloat? (s : String) : Option ℚ :=
  let cs := s.data
  let neg : Bool := cs.head? = some '-'
  let body := if cs.head? = some '-' ∨ cs.head? = some '+' then cs.tail else cs
  let ip := body.takeWhile (fun c => c ≠ '.')
  let rest := body.dropWhile (fun c => c ≠ '.')
  if rest.isEmpty then
    if ip.all Char.isDigit ∧ ¬ ip.isEmpty then
      some (if neg then -(digitsVal ip : ℚ) else (digitsVal ip : ℚ))
    else none
  else
    let fp := rest.tail
    if ip.all Char.isDigit ∧ fp.all Char.isDigit ∧ (¬ ip.isEmpty ∨ ¬ fp.isEmpty) then
      let v : ℚ := (digitsVal ip : ℚ) + (digitsVal fp : ℚ) / (10 ^ fp.length : ℚ)
      some (if neg then -v else v)
    else none

/-- Whether a year is a leap year (Gregorian rule). -/
def isLeap (y : Nat) : Bool :=
  (y % 4 == 0 && y % 100 != 0) || y % 400 == 0

/-- Days in a month, as validated by `datetime`. -/
def daysInMonth (y m : Nat) : Nat :=
  if m = 2 then (if isLeap y then 29 else 28)
  else if m = 4 ∨ m = 6 ∨ m = 9 ∨ m = 11 then 30
  else 31

/-- Two decimal digits as a number, `none` if either is not a digit. -/
def twoDigits? (a b : Char) : Option Nat :=
  if a.isDigit ∧ b.isDigit then some ((a.toNat - 48) * 10 + (b.toNat - 48))
  else none

/-- Model of `datetime.strptime(date_str.split('.')[0], '%Y-%m-%d %H:%M:%S')`
(line 188): drop any fractional-second suffix starting at the first dot, then
match the fixed-width `YYYY-MM-DD HH:MM:SS` layout the program's inputs use,
with the range validation `datetime` performs; `none` models the raised
`ValueError` (row skipped). -/
def parseDate? (s : String) : Option DateTime :=
  let head := s.data.takeWhile (fun c => c ≠ '.')
  match head with
  | [y1, y2, y3, y4, '-', m1, m2, '-', d1, d2, ' ',
     h1, h2, ':', n1, n2, ':', s1, s2] =>
    match twoDigits? y1 y2, twoDigits? y3 y4, twoDigits? m1 m2,
        twoDigits? d1 d2, twoDigits? h1 h2, twoDigits? n1 n2,
        twoDigits? s1 s2 with
    | some yh, some yl, some mo, some dd, some hh, some mi, some ss =>
      let y := yh * 100 + yl
      if 1 ≤ y ∧ 1 ≤ mo ∧ mo ≤ 12 ∧ 1 ≤ dd ∧ dd ≤ daysInMonth y mo ∧
          hh ≤ 23 ∧ mi ≤ 59 ∧ ss ≤ 59 then
        some ⟨y, mo, dd, hh, mi, ss⟩
      else none
    | _, _, _, _, _, _, _ => none
  | _ => none

/-- The per-row body of `parse_binance_csv` (lines 176-221): resolve the
aliased columns, skip the row (`none`) when timestamp, asset or signed
quantity is missing, empty, or fails to parse — including when a present,
non-empty price value fails to parse (`float` raises inside the row-level
`try`) — and otherwise build the `Transaction` with `fee_eur = 0`. -/
def parseRow (row : Row) : Option Transaction :=
  let date_str? := resolve row ["Date(UTC)", "Date", "UTC_Time"]
  let coin? := resolve row ["Coin", "Asset"]
  let change_str? := resolve row ["Change", "Amount"]
  let operation := (resolve row ["Operation", "Type"]).getD "unknown"
  match date_str?, coin?, change_str? with
  | some ds, some coin, some cs =>
    match parseDate? ds, parseFloat? cs with
    | some date, some change =>
      let price_str := (resolve row ["Price", "Value"]).getD "0"
      match parseFloat? price_str with
      | some price =>
        some { date := date
               asset := coin
               type := classify operation change
               amount := |change|
               price_eur := price
               fee_eur := 0 }
      | none => none
    | _, _ => none
  | _, _, _ => none

/-- `parse_binance_csv` at the level of tokenised rows: every row that
parses, in input order; rows that fail are dropped silently. -/
def parse_binance_csv (rows : List Row) : List Transaction :=
  rows.filterMap parseRow

/-! ## Concrete inputs shared by the claim theorems. -/

/-- An arbitrary first timestamp. -/
def dEx1 : DateTime := ⟨2024, 1, 1, 0, 0, 0⟩

/-- An arbitrary second timestamp. -/
def dEx2 : DateTime := ⟨2024, 1, 2, 0, 0, 0⟩

/-- An arbitrary third timestamp. -/
def dEx3 : DateTime := ⟨2024, 1, 3, 0, 0, 0⟩

/-- C2: for an asset bought in two lots (qty 1 @ 100, then qty 1 @ 200, fees
zero) and then sold with qty 1 @ 150, the earlier lot is matched first: the
FIFO loop charges a cost basis of 100, the realized gain added to the gains
total is 50 (losses untouched), and the surviving lot is the later 200-cost
one. -/
theorem C2_fifo_order :
    (sellLoop 1 ((lotsGet (List.foldl add_transaction initState
        [⟨dEx1, "BTC", TxType.buy, 1, 100, 0⟩,
         ⟨dEx2, "BTC", TxType.buy, 1, 200, 0⟩]).lots "BTC").getD []) 0).1 = 100 ∧
    (List.foldl add_transaction initState
        [⟨dEx1, "BTC", TxType.buy, 1, 100, 0⟩,
         ⟨dEx2, "BTC", TxType.buy, 1, 200, 0⟩,
         ⟨dEx3, "BTC", TxType.sell, 1, 150, 0⟩]).gains = 50 ∧
    (List.foldl add_transaction initState
        [⟨dEx1, "BTC", TxType.buy, 1, 100, 0⟩,
         ⟨dEx2, "BTC", TxType.buy, 1, 200, 0⟩,
         ⟨dEx3, "BTC", TxType.sell, 1, 150, 0⟩]).losses = 0 ∧
    lotsGet (List.foldl add_transaction initState
        [⟨dEx1, "BTC", TxType.buy, 1, 100, 0⟩,
         ⟨dEx2, "BTC", TxType.buy, 1, 200, 0⟩,
         ⟨dEx3, "BTC", TxType.sell, 1, 150, 0⟩]).lots "BTC"
      = some [⟨1, 200, 200, dEx2⟩] := by
  norm_num [add_transaction, process_buy, process_sell, sellLoop, lotsGet, lotsSet,
    initState, Transaction.total_cost]

/-- C3: a sell that consumes only part of the head lot charges the
proportional cost `cost_per_unit * remaining` and decrements the lot's
quantity and total cost by the consumed amounts (general branch of the FIFO
loop); concretely, buy qty 3 @ 30 then sell qty 1 @ 50 leaves the lot at
quantity 2 / total cost 60 and realizes a gain of 20. -/
theorem C3_partial_lot :
    (∀ (r : ℚ) (lot : Lot) (rest : List Lot) (cb : ℚ), 0 < r → r < lot.quantity →
      sellLoop r (lot :: rest) cb =
        (cb + lot.cost_per_unit * r,
          { quantity := lot.quantity - r
            cost_eur_total := lot.cost_eur_total - lot.cost_per_unit * r
            cost_per_unit := lot.cost_per_unit
            date := lot.date } :: rest)) ∧
    lotsGet (List.foldl add_transaction initState
        [⟨dEx1, "BTC", TxType.buy, 3, 30, 0⟩,
         ⟨dEx2, "BTC", TxType.sell, 1, 50, 0⟩]).lots "BTC"
      = some [⟨2, 60, 30, dEx1⟩] ∧
    (List.foldl add_transaction initState
        [⟨dEx1, "BTC", TxType.buy, 3, 30, 0⟩,
         ⟨dEx2, "BTC", TxType.sell, 1, 50, 0⟩]).gains = 20 := by
  refine ⟨?_, ?_, ?_⟩
  · intro r lot rest cb h1 h2
    rw [sellLoop]
    rw [if_neg (not_le.mpr h1), if_neg (not_le.mpr h2)]
  · norm_num [add_transaction, process_buy, process_sell, sellLoop, lotsGet, lotsSet,
      initState, Transaction.total_cost]
  · norm_num [add_transaction, process_buy, process_sell, sellLoop, lotsGet, lotsSet,
      initState, Transaction.total_cost]

/-- Witness for C3: the general fractional branch applied at
remaining = 1 against the lot (3, 90, 30). -/
theorem C3_partial_lot_witness :
    (0 : ℚ) < 1 ∧ (1 : ℚ) < (Lot.mk 3 90 30 dEx1).quantity ∧
    sellLoop 1 [Lot.mk 3 90 30 dEx1] 0 =
      ((0 : ℚ) + (Lot.mk 3 90 30 dEx1).cost_per_unit * 1,
        { quantity := (Lot.mk 3 90 30 dEx1).quantity - 1
          cost_eur_total := (Lot.mk 3 90 30 dEx1).cost_eur_total -
            (Lot.mk 3 90 30 dEx1).cost_per_unit * 1
          cost_per_unit := (Lot.mk 3 90 30 dEx1).cost_per_unit
          date := (Lot.mk 3 90 30 dEx1).date } :: []) :=
  ⟨by norm_num, by norm_num,
    C3_partial_lot.1 1 (Lot.mk 3 90 30 dEx1) [] 0 (by norm_num) (by norm_num)⟩

/-- C8: running the ledger over the empty transaction list yields the
all-zero summary with no errors (and `runLedger` is by construction a total
deterministic function on transaction lists). -/
theorem C8_empty_run :
    runLedger [] =
      { gains := 0, losses := 0, net_position := 0, staking_income := 0,
        total_transactions := 0, errors := [], estimated_tax_liability := 0 } := by
  norm_num [runLedger, get_summary, initState, estimate_tax, round2, roundHalfEven]

/-- C6: the tax estimate depends only on the net amount: non-positive net
yields 0; positive net applies a single flat rate chosen by upper-bound
inclusive brackets to the whole amount, rounded to 2 decimals; net exactly
6000 yields 1140 and net 6000.01 falls in the 21% bracket (yielding 1260). -/
theorem C6_tax_brackets :
    (∀ net : ℚ, net ≤ 0 → estimate_tax net = 0) ∧
    (∀ net : ℚ, 0 < net →
      estimate_tax net = round2 (net *
        (if net ≤ 6000 then 19 / 100
         else if net ≤ 50000 then 21 / 100
         else if net ≤ 200000 then 23 / 100
         else 27 / 100))) ∧
    estimate_tax 6000 = 1140 ∧
    estimate_tax (600001 / 100) = round2 (600001 / 100 * (21 / 100)) ∧
    estimate_tax (600001 / 100) = 1260 := by
  refine ⟨?_, ?_, ?_, ?_, ?_⟩
  · intro net h
    simp [estimate_tax, not_lt.mpr h]
  · intro net h
    simp [estimate_tax, h]
  · norm_num [estimate_tax, round2, roundHalfEven]
  · norm_num [estimate_tax, round2, roundHalfEven]
  · norm_num [estimate_tax, round2, roundHalfEven]

/-- Witness for C6: the hypothesised parts applied at net = -5 (non-positive)
and net = 7000 (in the 21% bracket). -/
theorem C6_tax_brackets_witness :
    estimate_tax (-5) = 0 ∧
    estimate_tax 7000 = round2 (7000 *
      (if (7000 : ℚ) ≤ 6000 then 19 / 100
       else if (7000 : ℚ) ≤ 50000 then 21 / 100
       else if (7000 : ℚ) ≤ 200000 then 23 / 100
       else 27 / 100)) :=
  ⟨C6_tax_brackets.1 (-5) (by norm_num), C6_tax_brackets.2.1 7000 (by norm_num)⟩

/-- C7: a Sell of an asset with empty or absent inventory leaves the gains
and losses totals unchanged (contributes zero), appends exactly the one
diagnostic string referencing that asset, and still grows the transaction
count by one. -/
theorem C7_sell_without_purchase (s : EngineState) (tx : Transaction)
    (ht : tx.type = TxType.sell)
    (h : lotsGet s.lots tx.asset = none ∨ lotsGet s.lots tx.asset = some []) :
    (add_transaction s tx).gains = s.gains ∧
    (add_transaction s tx).losses = s.losses ∧
    (add_transaction s tx).errors = s.errors ++ [ventaSinCompra tx.asset] ∧
    (add_transaction s tx).transactions.length = s.transactions.length + 1 := by
  unfold add_transaction
  rw [ht]
  rcases h with h | h <;> simp [process_sell, h]

/-- Witness for C7: a sell of 5 ETH against the fresh engine, which has no
inventory at all. -/
theorem C7_sell_without_purchase_witness :
    (add_transaction initState ⟨dEx1, "ETH", TxType.sell, 5, 10, 0⟩).gains
        = initState.gains ∧
    (add_transaction initState ⟨dEx1, "ETH", TxType.sell, 5, 10, 0⟩).losses
        = initState.losses ∧
    (add_transaction initState ⟨dEx1, "ETH", TxType.sell, 5, 10, 0⟩).errors
        = initState.errors ++ [ventaSinCompra "ETH"] ∧
    (add_transaction initState ⟨dEx1, "ETH", TxType.sell, 5, 10, 0⟩).transactions.length
        = initState.transactions.length + 1 :=
  C7_sell_without_purchase initState ⟨dEx1, "ETH", TxType.sell, 5, 10, 0⟩ rfl
    (Or.inl rfl)

/-- C10: frame property of the error path: a Sell for an asset with no
existing inventory appends one entry to the error log and one to the
transaction list and changes nothing else — gains, losses, staking income
and the whole per-asset lot inventory map are untouched. -/
theorem C10_error_path_frame (s : EngineState) (tx : Transaction)
    (ht : tx.type = TxType.sell)
    (h : lotsGet s.lots tx.asset = none ∨ lotsGet s.lots tx.asset = some []) :
    (add_transaction s tx).errors = s.errors ++ [ventaSinCompra tx.asset] ∧
    (add_transaction s tx).transactions = s.transactions ++ [tx] ∧
    (add_transaction s tx).gains = s.gains ∧
    (add_transaction s tx).losses = s.losses ∧
    (add_transaction s tx).staking_income = s.staking_income ∧
    (add_transaction s tx).lots = s.lots := by
  unfold add_transaction
  rw [ht]
  rcases h with h | h <;> simp [process_sell, h]

/-- Witness for C10: a sell of 1 XRP against an engine holding only BTC
inventory (the XRP inventory is absent). -/
theorem C10_error_path_frame_witness :
    (add_transaction (add_transaction initState ⟨dEx1, "BTC", TxType.buy, 1, 100, 0⟩)
        ⟨dEx2, "XRP", TxType.sell, 1, 10, 0⟩).errors
      = (add_transaction initState ⟨dEx1, "BTC", TxType.buy, 1, 100, 0⟩).errors
          ++ [ventaSinCompra "XRP"] ∧
    (add_transaction (add_transaction initState ⟨dEx1, "BTC", TxType.buy, 1, 100, 0⟩)
        ⟨dEx2, "XRP", TxType.sell, 1, 10, 0⟩).transactions
      = (add_transaction initState ⟨dEx1, "BTC", TxType.buy, 1, 100, 0⟩).transactions
          ++ [⟨dEx2, "XRP", TxType.sell, 1, 10, 0⟩] ∧
    (add_transaction (add_transaction initState ⟨dEx1, "BTC", TxType.buy, 1, 100, 0⟩)
        ⟨dEx2, "XRP", TxType.sell, 1, 10, 0⟩).gains
      = (add_transaction initState ⟨dEx1, "BTC", TxType.buy, 1, 100, 0⟩).gains ∧
    (add_transaction (add_transaction initState ⟨dEx1, "BTC", TxType.buy, 1, 100, 0⟩)
        ⟨dEx2, "XRP", TxType.sell, 1, 10, 0⟩).losses
      = (add_transaction initState ⟨dEx1, "BTC", TxType.buy, 1, 100, 0⟩).losses ∧
    (add_transaction (add_transaction initState ⟨dEx1, "BTC", TxType.buy, 1, 100, 0⟩)
        ⟨dEx2, "XRP", TxType.sell, 1, 10, 0⟩).staking_income
      = (add_transaction initState ⟨dEx1, "BTC", TxType.buy, 1, 100, 0⟩).staking_income ∧
    (add_transaction (add_transaction initState ⟨dEx1, "BTC", TxType.buy, 1, 100, 0⟩)
        ⟨dEx2, "XRP", TxType.sell, 1, 10, 0⟩).lots
      = (add_transaction initState ⟨dEx1, "BTC", TxType.buy, 1, 100, 0⟩).lots :=
  C10_error_path_frame (add_transaction initState ⟨dEx1, "BTC", TxType.buy, 1, 100, 0⟩)
    ⟨dEx2, "XRP", TxType.sell, 1, 10, 0⟩ rfl
    (Or.inl (by decide))

/-- C9: applying any transaction preserves the sign invariant (gains
accumulator non-negative, losses accumulator non-positive, negative gains
being added directly into losses); every state reachable from the fresh
engine satisfies it; and the summary reports the absolute value of the
losses accumulator while keeping the net position equal to gains + losses
(both rounded to 2 decimals). -/
theorem C9_sign_invariant :
    (∀ (s : EngineState) (tx : Transaction), 0 ≤ s.gains → s.losses ≤ 0 →
      0 ≤ (add_transaction s tx).gains ∧ (add_transaction s tx).losses ≤ 0) ∧
    (∀ txs : List Transaction,
      0 ≤ (List.foldl add_transaction initState txs).gains ∧
      (List.foldl add_transaction initState txs).losses ≤ 0) ∧
    (∀ s : EngineState,
      (get_summary s).losses = round2 |s.losses| ∧
      (get_summary s).net_position = round2 (s.gains + s.losses)) := by
  have step : ∀ (s : EngineState) (tx : Transaction), 0 ≤ s.gains → s.losses ≤ 0 →
      0 ≤ (add_transaction s tx).gains ∧ (add_transaction s tx).losses ≤ 0 := by
    intro s tx hg hl
    unfold add_transaction
    cases htype : tx.type
    · simpa [process_buy] using ⟨hg, hl⟩
    · simp only [process_sell]
      split
      · split
        · rename_i hgain
          exact ⟨by simpa using add_nonneg hg (le_of_lt hgain), by simpa using hl⟩
        · rename_i hgain
          exact ⟨by simpa using hg, by simpa using add_nonpos hl (le_of_not_lt hgain)⟩
      · exact ⟨by simpa using hg, by simpa using hl⟩
    · simpa [process_staking] using ⟨hg, hl⟩
    · simpa using ⟨hg, hl⟩
  refine ⟨step, ?_, ?_⟩
  · intro txs
    suffices h : ∀ s : EngineState, 0 ≤ s.gains → s.losses ≤ 0 →
        0 ≤ (List.foldl add_transaction s txs).gains ∧
        (List.foldl add_transaction s txs).losses ≤ 0 by
      exact h initState le_rfl le_rfl
    induction txs with
    | nil => intro s hg hl; simpa using ⟨hg, hl⟩
    | cons t ts ih =>
      intro s hg hl
      simp only [List.foldl_cons]
      exact ih _ (step s t hg hl).1 (step s t hg hl).2
  · intro s
    exact ⟨rfl, rfl⟩

/-- Witness for C9: the step invariant applied to the fresh engine and a
sell with no inventory. -/
theorem C9_sign_invariant_witness :
    0 ≤ (add_transaction initState ⟨dEx1, "BTC", TxType.sell, 5, 10, 0⟩).gains ∧
    (add_transaction initState ⟨dEx1, "BTC", TxType.sell, 5, 10, 0⟩).losses ≤ 0 :=
  C9_sign_invariant.1 initState ⟨dEx1, "BTC", TxType.sell, 5, 10, 0⟩ le_rfl le_rfl

/-- Counterexample for C1: buy 1 BTC at 100, then sell 2 BTC at 100. The
sale exceeds inventory and is partly covered by the existing lot, yet the
error log stays empty — no 'sale without prior purchase' diagnostic is
recorded for the unmatched remainder; the full proceeds (200) minus the
partial cost basis (100) are booked as a gain of 100, and the exhausted
(empty) inventory entry remains. -/
theorem C1_counterexample :
    (add_transaction (add_transaction initState ⟨dEx1, "BTC", TxType.buy, 1, 100, 0⟩)
        ⟨dEx2, "BTC", TxType.sell, 2, 100, 0⟩).errors = [] ∧
    (add_transaction (add_transaction initState ⟨dEx1, "BTC", TxType.buy, 1, 100, 0⟩)
        ⟨dEx2, "BTC", TxType.sell, 2, 100, 0⟩).gains = 100 ∧
    lotsGet (add_transaction (add_transaction initState ⟨dEx1, "BTC", TxType.buy, 1, 100, 0⟩)
        ⟨dEx2, "BTC", TxType.sell, 2, 100, 0⟩).lots "BTC" = some [] := by
  norm_num [add_transaction, process_buy, process_sell, sellLoop, lotsGet, lotsSet,
    initState, Transaction.total_cost]

/-- C1 (amended): when the asset's inventory is non-empty at the start of a
Sell, the engine consumes the existing lots FIFO (the loop's cost basis goes
into the gain computation and the consumed queue is written back), but the
error log is left unchanged — no diagnostic is recorded for an unmatched
remainder; the diagnostic exists only on the empty-inventory path. -/
theorem C1_partial_oversell (s : EngineState) (tx : Transaction)
    (ht : tx.type = TxType.sell) (lot0 : Lot) (rest0 : List Lot)
    (hl : lotsGet s.lots tx.asset = some (lot0 :: rest0)) :
    (add_transaction s tx).errors = s.errors ∧
    (add_transaction s tx).lots
      = lotsSet s.lots tx.asset (sellLoop tx.amount (lot0 :: rest0) 0).2 ∧
    (add_transaction s tx).gains + (add_transaction s tx).losses
      = s.gains + s.losses
        + (tx.amount * tx.price_eur - (sellLoop tx.amount (lot0 :: rest0) 0).1
            - tx.fee_eur) := by
  unfold add_transaction
  rw [ht]
  simp only [process_sell]
  simp only [hl]
  split
  · refine ⟨rfl, rfl, ?_⟩
    ring
  · refine ⟨rfl, rfl, ?_⟩
    ring

/-- Witness for C1 (amended): after buying 1 BTC at 100, selling 2 BTC at
100 leaves the error log unchanged while consuming the whole lot. -/
theorem C1_partial_oversell_witness :
    (add_transaction (add_transaction initState ⟨dEx1, "BTC", TxType.buy, 1, 100, 0⟩)
        ⟨dEx2, "BTC", TxType.sell, 2, 100, 0⟩).errors
      = (add_transaction initState ⟨dEx1, "BTC", TxType.buy, 1, 100, 0⟩).errors ∧
    (add_transaction (add_transaction initState ⟨dEx1, "BTC", TxType.buy, 1, 100, 0⟩)
        ⟨dEx2, "BTC", TxType.sell, 2, 100, 0⟩).lots
      = lotsSet (add_transaction initState ⟨dEx1, "BTC", TxType.buy, 1, 100, 0⟩).lots "BTC"
          (sellLoop 2 [Lot.mk 1 100 100 dEx1] 0).2 ∧
    (add_transaction (add_transaction initState ⟨dEx1, "BTC", TxType.buy, 1, 100, 0⟩)
          ⟨dEx2, "BTC", TxType.sell, 2, 100, 0⟩).gains
        + (add_transaction (add_transaction initState ⟨dEx1, "BTC", TxType.buy, 1, 100, 0⟩)
            ⟨dEx2, "BTC", TxType.sell, 2, 100, 0⟩).losses
      = (add_transaction initState ⟨dEx1, "BTC", TxType.buy, 1, 100, 0⟩).gains
        + (add_transaction initState ⟨dEx1, "BTC", TxType.buy, 1, 100, 0⟩).losses
        + ((2 : ℚ) * 100 - (sellLoop 2 [Lot.mk 1 100 100 dEx1] 0).1 - 0) :=
  C1_partial_oversell (add_transaction initState ⟨dEx1, "BTC", TxType.buy, 1, 100, 0⟩)
    ⟨dEx2, "BTC", TxType.sell, 2, 100, 0⟩ rfl (Lot.mk 1 100 100 dEx1) []
    (by norm_num [add_transaction, process_buy, lotsGet, lotsSet, initState,
      Transaction.total_cost])

/-- Counterexample for C4: the row label "Staking Rewards" contains "reward"
and neither "buy" nor "sell", yet with a positive signed quantity the
classifier yields `buy`, not `staking` — the sign test in the first rule
outranks the stake/reward rule. -/
theorem C4_counterexample :
    strContains (lowerStr "Staking Rewards") "reward" = true ∧
    strContains (lowerStr "Staking Rewards") "buy" = false ∧
    strContains (lowerStr "Staking Rewards") "sell" = false ∧
    classify "Staking Rewards" 5 = TxType.buy := by decide

/-- C4 (amended): for a label containing "stake" or "reward" but neither
"buy" nor "sell", the classification is `staking` only when the signed
quantity is exactly zero; a positive value yields `buy` and a negative value
yields `sell`, because the sign fallback is embedded in the first two label
rules rather than applied after all label rules fail. -/
theorem C4_sign_precedence (operation : String) (change : ℚ)
    (hb : strContains (lowerStr operation) "buy" = false)
    (hs : strContains (lowerStr operation) "sell" = false)
    (hr : strContains (lowerStr operation) "stake" = true ∨
      strContains (lowerStr operation) "reward" = true) :
    classify operation change =
      if change > 0 then TxType.buy
      else if change < 0 then TxType.sell
      else TxType.staking := by
  unfold classify
  by_cases hp : change > 0
  · simp [hb, hp]
  · by_cases hn : change < 0
    · simp [hb, hs, hp, hn]
    · rcases hr with h | h <;> simp [hb, hs, hp, hn, h]

/-- Witness for C4 (amended): a "reward"-labelled row with signed quantity 1
is classified `buy`. -/
theorem C4_sign_precedence_witness :
    classify "reward" 1 =
      if (1 : ℚ) > 0 then TxType.buy
      else if (1 : ℚ) < 0 then TxType.sell
      else TxType.staking :=
  C4_sign_precedence "reward" 1 (by decide) (by decide) (Or.inr (by decide))

/-- Counterexample for C5: a row whose timestamp, asset and signed quantity
are all valid but whose Price value "abc" is present and unparseable is
dropped entirely (`float` raises and the row-level handler skips the row),
not emitted with a zero price as the claim states. -/
theorem C5_counterexample :
    parseRow [("Date(UTC)", "2024-01-02 03:04:05"), ("Coin", "BTC"),
      ("Change", "2"), ("Price", "abc")] = none ∧
    parseDate? "2024-01-02 03:04:05" = some ⟨2024, 1, 2, 3, 4, 5⟩ ∧
    parseFloat? "2" = some 2 ∧
    parseFloat? "abc" = none := by decide

/-- C5 (amended): the zero default for the per-unit price applies only when
the price field is absent (or empty) — then the literal "0" is parsed and the
row is emitted with `price_eur = 0`; a present, non-empty, unparseable price
value instead aborts the row. -/
theorem C5_price_default (row : Row) (ds coin cs : String) (d : DateTime) (change : ℚ)
    (h1 : resolve row ["Date(UTC)", "Date", "UTC_Time"] = some ds)
    (h2 : resolve row ["Coin", "Asset"] = some coin)
    (h3 : resolve row ["Change", "Amount"] = some cs)
    (h4 : parseDate? ds = some d)
    (h5 : parseFloat? cs = some change)
    (h6 : resolve row ["Price", "Value"] = none) :
    parseRow row = some
      { date := d
        asset := coin
        type := classify ((resolve row ["Operation", "Type"]).getD "unknown") change
        amount := |change|
        price_eur := 0
        fee_eur := 0 } := by
  unfold parseRow
  simp only [h1, h2, h3, h4, h5, h6, Option.getD_none]
  have h0 : parseFloat? "0" = some 0 := by decide
  simp [h0]

/-- Witness for C5 (amended): a row with no price column at all is emitted
with zero price. -/
theorem C5_price_default_witness :
    parseRow [("Date(UTC)", "2024-01-02 03:04:05"), ("Coin", "BTC"), ("Change", "-2")]
      = some
        { date := ⟨2024, 1, 2, 3, 4, 5⟩
          asset := "BTC"
          type := classify ((resolve
              [("Date(UTC)", "2024-01-02 03:04:05"), ("Coin", "BTC"), ("Change", "-2")]
              ["Operation", "Type"]).getD "unknown") (-2)
          amount := |(-2 : ℚ)|
          price_eur := 0
          fee_eur := 0 } :=
  C5_price_default
    [("Date(UTC)", "2024-01-02 03:04:05"), ("Coin", "BTC"), ("Change", "-2")]
    "2024-01-02 03:04:05" "BTC" "-2" ⟨2024, 1, 2, 3, 4, 5⟩ (-2)
    (by decide) (by decide) (by decide) (by decide) (by decide) (by decide)
